import Mathlib

/-! Portfolio script: a shallow embedding of `script.js`.

The script is a set of event listeners and animation callbacks over the DOM.
Each component is embedded as a pure function on an explicit state record
holding exactly the DOM properties and module variables the component reads
or writes.  JavaScript numbers are embedded as rationals (`ℚ`) or integers,
timers and animation frames as explicit "pending callback" data, and a thrown
`TypeError` as `Except.error`.
-/

namespace Portfolio

/-! ## JavaScript helpers -/

/-- Array.prototype.indexOf: the first position of `x`, or `-1`. -/
def jsIndexOf {α : Type} [DecidableEq α] (xs : List α) (x : α) : Int :=
  if xs.indexOf x < xs.length then (xs.indexOf x : Int) else -1

/-- Indexing an array of strings with a number and assigning the result to a
string-valued DOM property: an index outside the array reads `undefined`,
which the property stores as the text "undefined". -/
def jsGetString (xs : List String) (i : Int) : String :=
  if 0 ≤ i then (xs.get? i.toNat).getD "undefined" else "undefined"

/-! ## 9. Image lightbox -/

/-- The literal gallery list `allCertImages`. -/
def allCertImages : List String :=
  ["images/c1.png", "images/c2.png", "images/c3.png", "images/c4.png",
   "images/coe.jpg", "images/toeic1.png"]

/-- The element `#imageLightbox`: whether its class list holds `active`, and
its inline `display` style. -/
structure LightboxEl where
  active : Bool
  display : String
  deriving DecidableEq, Repr

/-- The element `#lightboxImage`: its `src` and the two inline styles the
script writes. -/
structure ImageEl where
  src : String
  opacity : String
  transform : String
  deriving DecidableEq, Repr

/-- What the script reads of an event target: its `id`, and whether
`target.closest(".lightbox-close")` finds an element. -/
structure EventTarget where
  id : String
  insideClose : Bool
  deriving DecidableEq, Repr

/-- A DOM event as the script uses it. -/
structure Event where
  key : String
  target : EventTarget
  deriving DecidableEq, Repr

/-- Callbacks handed to `setTimeout` by the lightbox functions. -/
inductive Timer where
  | hideLightbox : Timer
  | swapImage (direction : Int) : Timer
  deriving DecidableEq, Repr

/-- State of the lightbox component: the module variable
`currentImageIndex`, the two elements looked up by id (absent = `none`),
`document.body.style.overflow`, the pending timeouts and the number of
`stopPropagation` calls made so far. -/
structure LightboxState where
  currentImageIndex : Int
  lightbox : Option LightboxEl
  lightboxImage : Option ImageEl
  bodyOverflow : String
  timers : List Timer
  stopped : Nat
  deriving DecidableEq, Repr

/-- The text of `translate3d(<x>px, 0, 0)`. -/
def translate3dX (x : Int) : String :=
  "translate3d(" ++ toString x ++ "px, 0, 0)"

/-- Function `openLightbox(imageSrc)`. -/
def openLightbox (imageSrc : String) (s : LightboxState) : LightboxState :=
  match s.lightbox, s.lightboxImage with
  | some _, some img =>
    let found := jsIndexOf allCertImages imageSrc
    let idx := if found = -1 then 0 else found
    { s with
      currentImageIndex := idx
      lightboxImage := some { img with src := imageSrc }
      lightbox := some { display := "flex", active := true }
      bodyOverflow := "hidden" }
  | _, _ => s

/-- Function `closeLightbox(event)`; `none` is a call without an event. -/
def closeLightbox (event : Option Event) (s : LightboxState) : LightboxState :=
  let guarded : Bool :=
    match event with
    | some e => decide (e.target.id ≠ "imageLightbox") && !e.target.insideClose
    | none => false
  if guarded then s
  else
    match s.lightbox with
    | none => s
    | some lb =>
      { s with
        lightbox := some { lb with active := false }
        bodyOverflow := ""
        timers := s.timers ++ [Timer.hideLightbox]
        stopped := if event.isSome then s.stopped + 1 else s.stopped }

/-- The 400 ms timeout callback of `closeLightbox`. -/
def hideLightboxTimeout (s : LightboxState) : LightboxState :=
  match s.lightbox with
  | some lb => if !lb.active then { s with lightbox := some { lb with display := "none" } } else s
  | none => s

/-- Function `navigateLightbox(direction, event)` up to the point where it
returns, the image swap being left as a pending timeout. -/
def navigateLightbox (direction : Int) (event : Option Event) (s : LightboxState) :
    LightboxState :=
  let stopped := if event.isSome then s.stopped + 1 else s.stopped
  let moved := s.currentImageIndex + direction
  let idx : Int :=
    if moved < 0 then (allCertImages.length : Int) - 1
    else if moved ≥ (allCertImages.length : Int) then 0
    else moved
  match s.lightboxImage with
  | none => { s with stopped := stopped, currentImageIndex := idx }
  | some img =>
    { s with
      stopped := stopped
      currentImageIndex := idx
      lightboxImage :=
        some { img with opacity := "0", transform := translate3dX (direction * 30) }
      timers := s.timers ++ [Timer.swapImage direction] }

/-- The 200 ms timeout callback of `navigateLightbox`: it reads the module
variable `currentImageIndex` at the time it runs. -/
def swapImageTimeout (s : LightboxState) : LightboxState :=
  match s.lightboxImage with
  | none => s
  | some img =>
    { s with
      lightboxImage :=
        some { img with
          src := jsGetString allCertImages s.currentImageIndex
          opacity := "1"
          transform := "translate3d(0, 0, 0)" } }

/-- The index arithmetic of `navigateLightbox` on its own (6 is the length
of `allCertImages`); used to reason about repeated steps. -/
def wrapIndex (direction : Int) (i : Int) : Int :=
  if i + direction < 0 then 5 else if i + direction ≥ 6 then 0 else i + direction

/-- Run one pending timeout callback. -/
def fireTimer (t : Timer) (s : LightboxState) : LightboxState :=
  match t with
  | Timer.hideLightbox => hideLightboxTimeout s
  | Timer.swapImage _ => swapImageTimeout s

/-- A completed `navigateLightbox(direction)` call: the call itself followed
by its own timeout callback, which is then no longer pending. -/
def navigateLightboxCompleted (direction : Int) (event : Option Event)
    (s : LightboxState) : LightboxState :=
  let s1 := navigateLightbox direction event s
  let s2 := swapImageTimeout s1
  { s2 with timers := s2.timers.erase (Timer.swapImage direction) }

/-- The calls the page makes on the lightbox through the global API. -/
inductive LightboxCall where
  | open_ (src : String) : LightboxCall
  | navigate (direction : Int) (event : Option Event) : LightboxCall
  deriving DecidableEq, Repr

/-- Effect of one global API call, navigation being run to completion. -/
def LightboxCall.run (c : LightboxCall) (s : LightboxState) : LightboxState :=
  match c with
  | LightboxCall.open_ src => openLightbox src s
  | LightboxCall.navigate d e => navigateLightboxCompleted d e s

/-- Effect of a sequence of calls, first call first. -/
def runCalls (cs : List LightboxCall) (s : LightboxState) : LightboxState :=
  cs.foldl (fun st c => c.run st) s

/-- State of the page when the script has loaded: `currentImageIndex` is 0,
no timer is pending; the two elements are present and come from the HTML,
so their properties are parameters. -/
def initialLightboxState (lb : LightboxEl) (img : ImageEl) (overflow : String) :
    LightboxState :=
  { currentImageIndex := 0, lightbox := some lb, lightboxImage := some img,
    bodyOverflow := overflow, timers := [], stopped := 0 }

/-- The property "the index names the displayed image": `currentImageIndex`
is an integer in `[0, 6)` and the `src` of `#lightboxImage` is the entry of
`allCertImages` at that index. -/
def IndexNamesDisplayedImage (s : LightboxState) : Prop :=
  0 ≤ s.currentImageIndex ∧ s.currentImageIndex < 6 ∧
    ∃ img, s.lightboxImage = some img ∧
      allCertImages.get? s.currentImageIndex.toNat = some img.src

/-- A page whose lightbox is closed and whose image element shows nothing. -/
def closedLightboxPage : LightboxState :=
  initialLightboxState { active := false, display := "none" }
    { src := "", opacity := "", transform := "" } ""

/-! ## Keyboard navigation -/

/-- State read and written by the `keydown` listener: the lightbox state,
the module variable `currentSection`, the number of sections, and the
section indices on which `scrollIntoView` was called. -/
structure KeyboardState where
  lb : LightboxState
  currentSection : Int
  sectionCount : Nat
  scrolledTo : List Int
  deriving DecidableEq, Repr

/-- Function `scrollToSection(index)`. -/
def scrollToSection (index : Int) (k : KeyboardState) : KeyboardState :=
  if 0 ≤ index ∧ index < (k.sectionCount : Int) then
    { k with scrolledTo := k.scrolledTo ++ [index] }
  else k

/-- The `keydown` listener registered by `initKeyboard`. -/
def onKeydown (e : Event) (k : KeyboardState) : KeyboardState :=
  let lightboxActive : Bool :=
    match k.lb.lightbox with
    | some lb => lb.active
    | none => false
  if lightboxActive then
    if e.key = "Escape" then { k with lb := closeLightbox (some e) k.lb }
    else if e.key = "ArrowLeft" then { k with lb := navigateLightbox (-1) (some e) k.lb }
    else if e.key = "ArrowRight" then { k with lb := navigateLightbox 1 (some e) k.lb }
    else k
  else if e.key = "ArrowDown" ∧ k.currentSection < (k.sectionCount : Int) - 1 then
    scrollToSection (k.currentSection + 1) k
  else if e.key = "ArrowUp" ∧ k.currentSection > 0 then
    scrollToSection (k.currentSection - 1) k
  else k

/-- A page on which the lightbox is open on the first certificate and the
third of five sections is current. -/
def openLightboxPage : KeyboardState :=
  { lb := openLightbox "images/c1.png" closedLightboxPage,
    currentSection := 2, sectionCount := 5, scrolledTo := [] }

/-- An Escape key press dispatched on `document.body`. -/
def escapeOnBody : Event :=
  { key := "Escape", target := { id := "", insideClose := false } }

/-! ## 3. Scroll progress bar -/

/-- The operator `a || b` on two numbers: `a` unless it is falsy (zero). -/
def jsOrInt (a b : Int) : Int :=
  if a ≠ 0 then a else b

/-- What `initScrollProgress` keeps: the closure variable `ticking` and the
percentage written to `progressBar.style.width` (`none` until the first
write). -/
structure ProgressState where
  ticking : Bool
  barWidth : Option ℚ
  deriving DecidableEq, Repr

/-- The value `progress` of the container listener, from
`container.scrollTop`, `container.scrollHeight` and
`container.clientHeight`. -/
def containerProgress (scrollTop scrollHeight clientHeight : Int) : ℚ :=
  let scrollHeight : Int := scrollHeight - clientHeight
  if scrollHeight > 0 then ((scrollTop : ℚ) / (scrollHeight : ℚ)) * 100 else 0

/-- The value `progress` of the window listener, from `window.scrollY`,
`document.documentElement.scrollTop`, `document.documentElement.scrollHeight`
and `window.innerHeight`. -/
def windowProgress (scrollY docScrollTop docScrollHeight innerHeight : Int) : ℚ :=
  let scrollTop : Int := jsOrInt scrollY docScrollTop
  let scrollHeight : Int := docScrollHeight - innerHeight
  if scrollHeight > 0 then ((scrollTop : ℚ) / (scrollHeight : ℚ)) * 100 else 0

/-- Either scroll listener: request a frame unless one is already requested.
The result says whether a frame callback was queued. -/
def onScroll (s : ProgressState) : ProgressState × Bool :=
  if !s.ticking then ({ s with ticking := true }, true) else (s, false)

/-- The animation-frame callback queued by the container listener. -/
def containerFrame (scrollTop scrollHeight clientHeight : Int) (s : ProgressState) :
    ProgressState :=
  { s with barWidth := some (containerProgress scrollTop scrollHeight clientHeight),
           ticking := false }

/-- The animation-frame callback queued by the window listener. -/
def windowFrame (scrollY docScrollTop docScrollHeight innerHeight : Int)
    (s : ProgressState) : ProgressState :=
  { s with barWidth := some (windowProgress scrollY docScrollTop docScrollHeight innerHeight),
           ticking := false }

/-! ## 7. Animated counters -/

/-- Math.round: the nearest integer, a tie going up. -/
def mathRound (x : ℚ) : Int :=
  ⌊x + 1 / 2⌋

/-- A counter element under animation: its text content and whether a
`requestAnimationFrame(update)` is outstanding. -/
structure CounterEl where
  textContent : String
  frameRequested : Bool
  deriving DecidableEq, Repr

/-- The value `progress` inside `update`. -/
def animateCounter.progress (duration startTime currentTime : ℚ) : ℚ :=
  min ((currentTime - startTime) / duration) 1

/-- The integer `current` inside `update`. -/
def animateCounter.current (start end_ : Int) (duration startTime currentTime : ℚ) : Int :=
  let progress := animateCounter.progress duration startTime currentTime
  let eased := 1 - (1 - progress) ^ 4
  mathRound ((start : ℚ) + ((end_ : ℚ) - (start : ℚ)) * eased)

/-- The inner function `update(currentTime)` of `animateCounter`. -/
def animateCounter.update (start end_ : Int) (duration startTime currentTime : ℚ)
    (el : CounterEl) : CounterEl :=
  { el with
    textContent :=
      toString (animateCounter.current start end_ duration startTime currentTime) ++ "%"
    frameRequested :=
      decide (animateCounter.progress duration startTime currentTime < 1) }

/-- Function `animateCounter(el, start, end, duration)`: it records
`startTime` (a parameter here, read from `performance.now()`) and requests
the first frame. -/
def animateCounter (el : CounterEl) : CounterEl :=
  { el with frameRequested := true }

/-- The browser delivering frames: while a frame is requested, the next
timestamp of `ts` is passed to `update`.  Returns the element and the number
of updates performed; `fuel` bounds the number of frames delivered. -/
def animateCounter.run (start end_ : Int) (duration startTime : ℚ) (ts : Nat → ℚ) :
    Nat → Nat → CounterEl → CounterEl × Nat
  | 0, frame, el => (el, frame)
  | fuel + 1, frame, el =>
    if el.frameRequested then
      animateCounter.run start end_ duration startTime ts fuel (frame + 1)
        (animateCounter.update start end_ duration startTime (ts frame) el)
    else (el, frame)

/-! ## 5. Parallax -/

/-- The operator `a || b` where `a` is the result of `parseFloat`: `none`
stands for `NaN`; `NaN` and zero are falsy. -/
def jsOrNumber (a : Option ℚ) (b : ℚ) : ℚ :=
  match a with
  | some x => if x = 0 then b else x
  | none => b

/-- A `.layer-shape` element: the result of `parseFloat(shape.dataset.speed)`
(`none` is `NaN`: the attribute is missing or does not start with a number)
and the last `translate3d(x px, y px, 0)` written to its style. -/
structure LayerShape where
  speed : Option ℚ
  transform : Option (ℚ × ℚ)
  deriving DecidableEq, Repr

/-- Closure variables of `initParallax`, the layers, and the number of
`requestAnimationFrame(updateParallax)` calls made. -/
structure ParallaxState where
  scrollY : ℚ
  targetScrollY : ℚ
  mX : ℚ
  mY : ℚ
  targetMX : ℚ
  targetMY : ℚ
  layerShapes : List LayerShape
  framesRequested : Nat
  deriving DecidableEq, Repr

/-- The inner function `updateParallax()`. -/
def updateParallax (s : ParallaxState) : ParallaxState :=
  let scrollY := s.scrollY + (s.targetScrollY - s.scrollY) * 0.08
  let mX := s.mX + (s.targetMX - s.mX) * 0.06
  let mY := s.mY + (s.targetMY - s.mY) * 0.06
  { s with
    scrollY := scrollY
    mX := mX
    mY := mY
    layerShapes := s.layerShapes.map (fun shape =>
      let speed := jsOrNumber shape.speed 0.5
      let yPos := -(scrollY * speed * 0.3)
      let xMouse := mX * 30 * speed
      let yMouse := mY * 30 * speed
      { shape with transform := some (xMouse, yPos + yMouse) })
    framesRequested := s.framesRequested + 1 }

/-- The translation the layer would get if its factor were `speed`. -/
def translationAt (s : ParallaxState) (speed : ℚ) : ℚ × ℚ :=
  (s.mX * 30 * speed, -(s.scrollY * speed * 0.3) + s.mY * 30 * speed)

/-! ## 6. Typing effect -/

/-- A JavaScript string as its sequence of UTF-16 code units; `length` and
`charAt` count in these units. -/
abbrev JsString := List Nat

/-- String.prototype.charAt: the unit at `i` as a string, or the empty string. -/
def charAt (text : JsString) (i : Nat) : JsString :=
  (text.get? i).toList

/-- The operator `a || b` where `a` is a string or `undefined` (`none`):
`undefined` and the empty string are falsy. -/
def jsOrString (a : Option JsString) (b : JsString) : JsString :=
  match a with
  | some x => if x = [] then b else x
  | none => b

/-- The `.typed-text` element: `dataset.text`, the text content, the inline
`visibility` style and whether the class list holds `typing-done`. -/
structure TypedEl where
  dataText : Option JsString
  textContent : JsString
  visibility : String
  typingDone : Bool
  deriving DecidableEq, Repr

/-- State of the typing effect: the element, the closure variables `text`
and `charIndex`, and the delay in ms of the outstanding
`setTimeout(typeChar, delay)`, if one is outstanding. -/
structure TypingState where
  typedEl : TypedEl
  text : JsString
  charIndex : Nat
  pending : Option ℚ
  deriving DecidableEq, Repr

/-- Function `initTypingEffect()` on a page where `.typed-text` is present. -/
def startTyping (typedEl : TypedEl) : TypingState :=
  { typedEl := { typedEl with textContent := [], visibility := "visible" }
    text := jsOrString typedEl.dataText typedEl.textContent
    charIndex := 0
    pending := some 1800 }

/-- The inner function `typeChar()`, run when its timeout fires; `random` is
the value `Math.random()` returns in this invocation. -/
def typeChar (random : ℚ) (s : TypingState) : TypingState :=
  if s.charIndex < s.text.length then
    { s with
      typedEl := { s.typedEl with textContent := s.typedEl.textContent ++ charAt s.text s.charIndex }
      charIndex := s.charIndex + 1
      pending := some (60 + random * 40) }
  else
    { s with
      typedEl := { s.typedEl with typingDone := true }
      pending := none }

/-- The state after `k` invocations of `typeChar`, the `j`-th one (from 0)
drawing `randoms j`. -/
def typeCharTimes (randoms : Nat → ℚ) : Nat → TypingState → TypingState
  | 0, s => s
  | k + 1, s => typeChar (randoms k) (typeCharTimes randoms k s)

/-- The timer loop: while a timeout is outstanding it fires and `typeChar`
runs.  Returns the state and the number of invocations made; `fuel` bounds
the number of timeouts fired. -/
def runTyping (randoms : Nat → ℚ) : Nat → Nat → TypingState → TypingState × Nat
  | 0, count, s => (s, count)
  | fuel + 1, count, s =>
    match s.pending with
    | some _ => runTyping randoms fuel (count + 1) (typeChar (randoms count) s)
    | none => (s, count)

/-! ## 4. Section activation -/

/-- DOMTokenList.add: append the token unless it is present. -/
def classListAdd (classList : List String) (token : String) : List String :=
  if token ∈ classList then classList else classList ++ [token]

/-- DOMTokenList.remove. -/
def classListRemove (classList : List String) (token : String) : List String :=
  classList.filter (fun t => decide (t ≠ token))

/-- DOMTokenList.toggle with a `force` argument. -/
def classListToggle (classList : List String) (token : String) (force : Bool) :
    List String :=
  if force then classListAdd classList token else classListRemove classList token

/-- A DOM element as the section observer sees it: the identity of the node
and its class list. -/
structure Element where
  id : Nat
  classList : List String
  deriving DecidableEq, Repr

/-- An IntersectionObserverEntry: `isIntersecting` and the identity of
`target`. -/
structure Entry where
  isIntersecting : Bool
  target : Nat
  deriving DecidableEq, Repr

/-- The node lists `sections` and `navDots` (two separate sets of nodes, as
`querySelectorAll` returned them) and the module variable `currentSection`. -/
structure SectionState where
  sections : List Element
  navDots : List Element
  currentSection : Int
  deriving DecidableEq, Repr

/-- The body of `entries.forEach((entry) => ...)` in the section observer
callback. -/
def onEntry (entry : Entry) (st : SectionState) : SectionState :=
  if entry.isIntersecting then
    let cleared := st.sections.map (fun s =>
      { s with classList := classListRemove s.classList "active" })
    let marked := cleared.map (fun s =>
      if s.id = entry.target then { s with classList := classListAdd s.classList "active" }
      else s)
    let idx := jsIndexOf (st.sections.map (fun s => s.id)) entry.target
    let dots := st.navDots.mapIdx (fun i dot =>
      { dot with classList := classListToggle dot.classList "active" (decide ((i : Int) = idx)) })
    { sections := marked, navDots := dots, currentSection := idx }
  else st

/-- The callback given to the section `IntersectionObserver`. -/
def sectionObserverCallback (entries : List Entry) (st : SectionState) : SectionState :=
  entries.foldl (fun acc entry => onEntry entry acc) st

/-- Whether the element carries the class `active`. -/
def Element.isActive (e : Element) : Prop :=
  "active" ∈ e.classList

/-! ## Initialisation -/

/-- An exception thrown by the script. -/
inductive JsError where
  | typeError (message : String) : JsError
  deriving DecidableEq, Repr

/-- Registrations and writes the initializers make on objects whose state is
not otherwise tracked: the log of them is part of the page state. -/
inductive Effect where
  | addEventListener (target : String) (type : String) : Effect
  | requestAnimationFrame (callback : String) : Effect
  | setTimeout (callback : String) (ms : Nat) : Effect
  | observe (observer : String) (target : String) : Effect
  | setStyle (element : String) (property : String) (value : String) : Effect
  deriving DecidableEq, Repr

/-- The page as the initializers see it.  An element looked up once is an
`Option` (absent = `none`); a node list is a list (or its length where only
the length is used).  `gridPatterns` says, per section, whether it has a
`.grid-pattern` child; `hoverFine` is the result of the `matchMedia` query;
`typing` is the typing effect once started. -/
structure Page where
  container : Option Element
  gridPatterns : List Bool
  navDots : Nat
  cursor : Option Element
  cursorDot : Option Element
  progressBar : Option Element
  loader : Option Element
  hoverFine : Bool
  hoverTargets : Nat
  layerShapes : List LayerShape
  spotlight : Option Element
  typedEl : Option TypedEl
  counters : Nat
  waterFills : Nat
  section3 : Option Element
  revealItems : Nat
  bodyClassList : List String
  typing : Option TypingState
  effects : List Effect
  deriving DecidableEq, Repr

/-- Function `initLoader()`. -/
def initLoader (p : Page) : Page :=
  match p.loader with
  | none => p
  | some _ =>
    { p with
      bodyClassList := classListAdd p.bodyClassList "is-loading"
      effects := p.effects ++ [Effect.addEventListener "window" "load"] }

/-- Function `initGridPatterns()`. -/
def initGridPatterns (p : Page) : Page :=
  { p with gridPatterns := p.gridPatterns.map (fun hasGrid => if !hasGrid then true else hasGrid) }

/-- Function `initSectionObserver()`. -/
def initSectionObserver (p : Page) : Page :=
  { p with
    effects := p.effects ++
      (List.range p.gridPatterns.length).map
        (fun i => Effect.observe "sectionObserver" ("section " ++ toString i)) }

/-- Function `initNavDots()`. -/
def initNavDots (p : Page) : Page :=
  { p with
    effects := p.effects ++
      (List.range p.navDots).map
        (fun i => Effect.addEventListener ("navDot " ++ toString i) "click") }

/-- Function `initKeyboard()`. -/
def initKeyboard (p : Page) : Page :=
  { p with effects := p.effects ++ [Effect.addEventListener "document" "keydown"] }

/-- Function `initParallax()`.  The call `container.addEventListener` is made
without a test of `container`: on `null` it throws a `TypeError`. -/
def initParallax (p : Page) : Except JsError Page :=
  if p.layerShapes.length = 0 then Except.ok p
  else
    match p.container with
    | none =>
      Except.error (JsError.typeError "Cannot read properties of null (reading addEventListener)")
    | some _ =>
      let first := updateParallax
        { scrollY := 0, targetScrollY := 0, mX := 0, mY := 0, targetMX := 0, targetMY := 0,
          layerShapes := p.layerShapes, framesRequested := 0 }
      let spotlight :=
        match p.spotlight with
        | some _ => [Effect.addEventListener "document" "mousemove"]
        | none => []
      Except.ok
        { p with
          layerShapes := first.layerShapes
          effects := p.effects ++
            [Effect.addEventListener "container" "scroll",
             Effect.addEventListener "document" "mousemove",
             Effect.requestAnimationFrame "updateParallax"] ++ spotlight }

/-- Function `initScrollProgress()`. -/
def initScrollProgress (p : Page) : Page :=
  match p.progressBar, p.container with
  | some _, some _ =>
    { p with
      effects := p.effects ++
        [Effect.addEventListener "container" "scroll",
         Effect.addEventListener "window" "scroll"] }
  | _, _ => p

/-- Function `initCursor()`; the first `updateCursor()` call runs with all four
coordinates still 0. -/
def initCursor (p : Page) : Page :=
  match p.cursor, p.cursorDot with
  | some _, some _ =>
    if p.hoverFine then
      { p with
        bodyClassList := classListAdd p.bodyClassList "has-custom-cursor"
        effects := p.effects ++
          [Effect.addEventListener "document" "mousemove",
           Effect.setStyle "cursor" "transform" "translate3d(-20px, -20px, 0)",
           Effect.setStyle "cursorDot" "transform" "translate3d(-4px, -4px, 0)",
           Effect.requestAnimationFrame "updateCursor"] ++
          (List.range p.hoverTargets).flatMap (fun i =>
            [Effect.addEventListener ("hoverTarget " ++ toString i) "mouseenter",
             Effect.addEventListener ("hoverTarget " ++ toString i) "mouseleave"]) }
    else p
  | _, _ => p

/-- Function `initTypingEffect()`. -/
def initTypingEffect (p : Page) : Page :=
  match p.typedEl with
  | none => p
  | some typedEl =>
    { p with
      typedEl := some (startTyping typedEl).typedEl
      typing := some (startTyping typedEl)
      effects := p.effects ++ [Effect.setTimeout "typeChar" 1800] }

/-- Function `initCounters()`. -/
def initCounters (p : Page) : Page :=
  if p.counters = 0 then p
  else
    match p.section3 with
    | some _ => { p with effects := p.effects ++ [Effect.observe "counterObserver" "section3"] }
    | none => p

/-- Function `initWaterFill()`. -/
def initWaterFill (p : Page) : Page :=
  if p.waterFills = 0 then p
  else
    match p.section3 with
    | some _ => { p with effects := p.effects ++ [Effect.observe "skillsObserver" "section3"] }
    | none => p

/-- Function `initStaggerReveal()`. -/
def initStaggerReveal (p : Page) : Page :=
  { p with
    effects := p.effects ++
      (List.range p.revealItems).map
        (fun i => Effect.observe "revealObserver" ("revealItem " ++ toString i)) }

/-- Function `init()`: the twelve initializers in order; an exception ends
the run. -/
def init (p : Page) : Except JsError Page := do
  let p := initLoader p
  let p := initGridPatterns p
  let p := initSectionObserver p
  let p := initNavDots p
  let p := initKeyboard p
  let p ← initParallax p
  let p := initScrollProgress p
  let p := initCursor p
  let p := initTypingEffect p
  let p := initCounters p
  let p := initWaterFill p
  pure (initStaggerReveal p)

/-- A page without `#main-container` that has one `.layer-shape` element and
nothing else the script looks for. -/
def pageWithoutContainer : Page :=
  { container := none, gridPatterns := [], navDots := 0, cursor := none, cursorDot := none,
    progressBar := none, loader := none, hoverFine := false, hoverTargets := 0,
    layerShapes := [{ speed := some (1 / 5), transform := none }], spotlight := none,
    typedEl := none, counters := 0, waterFills := 0, section3 := none, revealItems := 0,
    bodyClassList := [], typing := none, effects := [] }

/-- A parallax state with one layer whose `data-speed` is "0", the pointer
target half a viewport to the right and below, and 100 px of scroll. -/
def zeroSpeedParallax : ParallaxState :=
  { scrollY := 0, targetScrollY := 100, mX := 0, mY := 0, targetMX := 1 / 2,
    targetMY := 1 / 2, layerShapes := [{ speed := some 0, transform := none }],
    framesRequested := 0 }

/-- Three sections, the first of them active, with three nav dots. -/
def threeSections : SectionState :=
  { sections := [{ id := 10, classList := ["section", "active"] },
                 { id := 11, classList := ["section"] },
                 { id := 12, classList := ["section"] }],
    navDots := [{ id := 20, classList := ["nav-dot", "active"] },
                { id := 21, classList := ["nav-dot"] },
                { id := 22, classList := ["nav-dot"] }],
    currentSection := 0 }

/-- A `.typed-text` element whose `data-text` is "Hi". -/
def hiElement : TypedEl :=
  { dataText := some [72, 105], textContent := [], visibility := "hidden", typingDone := false }

/-! ## Theorems -/

theorem allCertImages_length : (allCertImages.length : Int) = 6 := by
  simp [allCertImages]

theorem navigateLightbox_index (d : Int) (e : Option Event) (s : LightboxState) :
    (navigateLightbox d e s).currentImageIndex = wrapIndex d s.currentImageIndex := by
  unfold navigateLightbox wrapIndex
  simp only [allCertImages_length]
  cases s.lightboxImage <;> simp

theorem navigateLightbox_iterate_index (d : Int) (e : Option Event) (n : Nat)
    (s : LightboxState) :
    ((navigateLightbox d e)^[n] s).currentImageIndex = (wrapIndex d)^[n] s.currentImageIndex := by
  induction n generalizing s with
  | zero => rfl
  | succ n ih => rw [Function.iterate_succ_apply, ih, navigateLightbox_index,
      Function.iterate_succ_apply]

/-- C2: from an index `i` with `0 ≤ i < 6` a step `d ∈ {-1, 1}` of
`navigateLightbox` leaves `currentImageIndex = (i + d) mod 6`, and six steps
in the same direction return to `i`. -/
theorem navigateLightbox_cycles (s : LightboxState) (d : Int) (e : Option Event)
    (hlo : 0 ≤ s.currentImageIndex) (hhi : s.currentImageIndex < 6)
    (hd : d = -1 ∨ d = 1) :
    (navigateLightbox d e s).currentImageIndex = (s.currentImageIndex + d) % 6 ∧
    ((navigateLightbox d e)^[6] s).currentImageIndex = s.currentImageIndex := by
  constructor
  · rw [navigateLightbox_index]
    unfold wrapIndex
    split_ifs <;> omega
  · rw [navigateLightbox_iterate_index]
    generalize s.currentImageIndex = i at hlo hhi
    interval_cases i <;> rcases hd with rfl | rfl <;> decide

/-- C9 (the code does not do this): an Escape `keydown` whose target is
neither `#imageLightbox` nor inside `.lightbox-close` leaves the whole state
as it was while the lightbox is active, because `closeLightbox(e)` returns at
its target guard: the lightbox keeps `active` and the body overflow is not
reset. -/
theorem escape_keydown_leaves_lightbox_open (e : Event) (k : KeyboardState)
    (lb : LightboxEl) (hlb : k.lb.lightbox = some lb) (hact : lb.active = true)
    (hkey : e.key = "Escape") (hid : e.target.id ≠ "imageLightbox")
    (hclose : e.target.insideClose = false) :
    onKeydown e k = k := by
  unfold onKeydown
  simp [hlb, hact, hkey, closeLightbox, hid, hclose]

theorem escape_keydown_leaves_lightbox_open_witness :
    onKeydown escapeOnBody openLightboxPage = openLightboxPage ∧
    openLightboxPage.lb.lightbox = some { active := true, display := "flex" } ∧
    openLightboxPage.lb.bodyOverflow = "hidden" :=
  ⟨escape_keydown_leaves_lightbox_open escapeOnBody openLightboxPage
      { active := true, display := "flex" } rfl rfl rfl (by decide) rfl, rfl, rfl⟩

/-- Both lightbox elements are present. -/
theorem elements_present_run (c : LightboxCall) (s : LightboxState)
    (h : s.lightbox.isSome ∧ s.lightboxImage.isSome) :
    (c.run s).lightbox.isSome ∧ (c.run s).lightboxImage.isSome := by
  obtain ⟨h1, h2⟩ := h
  obtain ⟨lb, hlb⟩ := Option.isSome_iff_exists.mp h1
  obtain ⟨img, himg⟩ := Option.isSome_iff_exists.mp h2
  cases c with
  | open_ src => simp [LightboxCall.run, openLightbox, hlb, himg]
  | navigate d e =>
    simp [LightboxCall.run, navigateLightboxCompleted, navigateLightbox, swapImageTimeout,
      hlb, himg]

theorem elements_present_runCalls (cs : List LightboxCall) (s : LightboxState)
    (h : s.lightbox.isSome ∧ s.lightboxImage.isSome) :
    (runCalls cs s).lightbox.isSome ∧ (runCalls cs s).lightboxImage.isSome := by
  induction cs generalizing s with
  | nil => exact h
  | cons c cs ih => exact ih (c.run s) (elements_present_run c s h)

theorem runCalls_append_singleton (cs : List LightboxCall) (c : LightboxCall)
    (s : LightboxState) : runCalls (cs ++ [c]) s = c.run (runCalls cs s) := by
  simp [runCalls, List.foldl_append]

theorem wrapIndex_range (d i : Int) : 0 ≤ wrapIndex d i ∧ wrapIndex d i < 6 := by
  unfold wrapIndex
  split_ifs <;> omega

theorem jsIndexOf_allCertImages_range (src : String) :
    let found := jsIndexOf allCertImages src
    0 ≤ (if found = -1 then 0 else found) ∧ (if found = -1 then 0 else found) < 6 := by
  intro found
  have hlen : allCertImages.length = 6 := by simp [allCertImages]
  have : found = jsIndexOf allCertImages src := rfl
  unfold jsIndexOf at this
  split_ifs at this <;> split_ifs <;> omega

theorem run_index_range (c : LightboxCall) (s : LightboxState)
    (h : 0 ≤ s.currentImageIndex ∧ s.currentImageIndex < 6) :
    0 ≤ (c.run s).currentImageIndex ∧ (c.run s).currentImageIndex < 6 := by
  cases c with
  | open_ src =>
    unfold LightboxCall.run openLightbox
    cases s.lightbox <;> cases s.lightboxImage <;>
      first | exact h | exact jsIndexOf_allCertImages_range src
  | navigate d e =>
    have hidx : (navigateLightboxCompleted d e s).currentImageIndex =
        wrapIndex d s.currentImageIndex := by
      rw [← navigateLightbox_index d e s]
      unfold navigateLightboxCompleted swapImageTimeout
      cases hh : (navigateLightbox d e s).lightboxImage <;> simp [hh]
    unfold LightboxCall.run
    rw [hidx]
    exact wrapIndex_range d _

theorem get_jsGetString (i : Int) (h0 : 0 ≤ i) (h6 : i < 6) :
    allCertImages.get? i.toNat = some (jsGetString allCertImages i) := by
  interval_cases i <;> simp [jsGetString, allCertImages]

theorem navigate_establishes (d : Int) (e : Option Event) (s : LightboxState)
    (h : s.lightboxImage.isSome) :
    IndexNamesDisplayedImage (navigateLightboxCompleted d e s) := by
  obtain ⟨img, himg⟩ := Option.isSome_iff_exists.mp h
  have hr := wrapIndex_range d s.currentImageIndex
  have hidx : (navigateLightbox d e s).currentImageIndex = wrapIndex d s.currentImageIndex :=
    navigateLightbox_index d e s
  have himg2 : ∃ img2, (navigateLightbox d e s).lightboxImage = some img2 := by
    unfold navigateLightbox
    simp [himg]
  obtain ⟨img2, himg2⟩ := himg2
  unfold IndexNamesDisplayedImage navigateLightboxCompleted swapImageTimeout
  simp only [himg2, hidx]
  refine ⟨hr.1, hr.2, _, rfl, ?_⟩
  exact get_jsGetString _ hr.1 hr.2

theorem listed_index_get (src : String) (hsrc : src ∈ allCertImages) :
    allCertImages.get?
      (if jsIndexOf allCertImages src = -1 then 0 else jsIndexOf allCertImages src).toNat
        = some src := by
  simp only [allCertImages, List.mem_cons, List.mem_singleton, List.not_mem_nil, or_false]
    at hsrc
  rcases hsrc with rfl | rfl | rfl | rfl | rfl | rfl <;> decide

theorem open_establishes (src : String) (s : LightboxState)
    (h : s.lightbox.isSome ∧ s.lightboxImage.isSome) (hsrc : src ∈ allCertImages) :
    IndexNamesDisplayedImage (openLightbox src s) := by
  obtain ⟨h1, h2⟩ := h
  obtain ⟨lb, hlb⟩ := Option.isSome_iff_exists.mp h1
  obtain ⟨img, himg⟩ := Option.isSome_iff_exists.mp h2
  unfold IndexNamesDisplayedImage openLightbox
  simp only [hlb, himg]
  have hr := jsIndexOf_allCertImages_range src
  exact ⟨hr.1, hr.2, _, rfl, listed_index_get src hsrc⟩

/-- C10 (as stated, fails): opening the lightbox on a path that is not in
`allCertImages` sets `currentImageIndex` to 0 while the displayed image is
that path, not `allCertImages[0]`. -/
theorem open_unlisted_breaks_index_names_image :
    (runCalls [LightboxCall.open_ "images/profile.png"] closedLightboxPage).currentImageIndex = 0 ∧
    (runCalls [LightboxCall.open_ "images/profile.png"] closedLightboxPage).lightboxImage =
      some { src := "images/profile.png", opacity := "", transform := "" } ∧
    ¬ IndexNamesDisplayedImage
      (runCalls [LightboxCall.open_ "images/profile.png"] closedLightboxPage) := by
  refine ⟨by decide, by decide, ?_⟩
  rintro ⟨_, _, img, himg, hget⟩
  have h1 : (runCalls [LightboxCall.open_ "images/profile.png"]
      closedLightboxPage).lightboxImage =
      some { src := "images/profile.png", opacity := "", transform := "" } := by decide
  have h0 : (runCalls [LightboxCall.open_ "images/profile.png"]
      closedLightboxPage).currentImageIndex = 0 := by decide
  rw [h1] at himg
  rw [h0] at hget
  injection himg with himg
  subst himg
  revert hget
  decide

/-- C10 (amended): from the state of a freshly loaded page with both lightbox
elements present, after any sequence of `openLightbox(src)` (any string) and
completed `navigateLightbox(d)` (any integer) calls `currentImageIndex` lies
in `[0, 6)`; and if the sequence has a last call and that call is a completed
`navigateLightbox` or an `openLightbox(src)` with `src` an entry of
`allCertImages`, the displayed image is `allCertImages[currentImageIndex]`,
whatever was opened before. -/
theorem lightbox_index_invariant (lb : LightboxEl) (img : ImageEl) (overflow : String)
    (cs : List LightboxCall) :
    (0 ≤ (runCalls cs (initialLightboxState lb img overflow)).currentImageIndex ∧
      (runCalls cs (initialLightboxState lb img overflow)).currentImageIndex < 6) ∧
    (∀ c, cs.getLast? = some c →
      (∀ src, c = LightboxCall.open_ src → src ∈ allCertImages) →
      IndexNamesDisplayedImage (runCalls cs (initialLightboxState lb img overflow))) := by
  have hpres : ∀ cs : List LightboxCall,
      (runCalls cs (initialLightboxState lb img overflow)).lightbox.isSome ∧
      (runCalls cs (initialLightboxState lb img overflow)).lightboxImage.isSome :=
    fun cs => elements_present_runCalls cs _ ⟨rfl, rfl⟩
  constructor
  · induction cs using List.reverseRecOn with
    | nil => exact ⟨le_refl _, by show (0 : Int) < 6; decide⟩
    | append_singleton cs c ih =>
      rw [runCalls_append_singleton]
      exact run_index_range c _ ih
  · intro c hlast hlisted
    induction cs using List.reverseRecOn with
    | nil => simp at hlast
    | append_singleton cs c0 _ =>
      rw [List.getLast?_concat] at hlast
      injection hlast with hlast
      subst hlast
      rw [runCalls_append_singleton]
      cases c0 with
      | open_ src =>
        exact open_establishes src _ (hpres cs) (hlisted src rfl)
      | navigate d e =>
        exact navigate_establishes d e _ (hpres cs).2

theorem lightbox_index_invariant_witness :
    [LightboxCall.open_ "images/profile.png", LightboxCall.navigate 1 none].getLast? =
      some (LightboxCall.navigate 1 none) ∧
    IndexNamesDisplayedImage
      (runCalls [LightboxCall.open_ "images/profile.png", LightboxCall.navigate 1 none]
        (initialLightboxState { active := false, display := "none" }
          { src := "", opacity := "", transform := "" } "")) ∧
    (runCalls [LightboxCall.open_ "images/profile.png", LightboxCall.navigate 1 none]
        (initialLightboxState { active := false, display := "none" }
          { src := "", opacity := "", transform := "" } "")).currentImageIndex = 1 :=
  ⟨rfl,
    (lightbox_index_invariant { active := false, display := "none" }
      { src := "", opacity := "", transform := "" } ""
      [LightboxCall.open_ "images/profile.png", LightboxCall.navigate 1 none]).2
      (LightboxCall.navigate 1 none) rfl (fun src h => by cases h),
    by decide⟩

theorem navigateLightbox_cycles_witness :
    (navigateLightbox 1 none (openLightbox "images/toeic1.png" closedLightboxPage)).currentImageIndex
      = (5 + 1) % 6 ∧
    ((navigateLightbox 1 none)^[6]
      (openLightbox "images/toeic1.png" closedLightboxPage)).currentImageIndex = 5 :=
  navigateLightbox_cycles (openLightbox "images/toeic1.png" closedLightboxPage) 1 none
    (by decide) (by decide) (Or.inr rfl)

/-! ### Scroll progress -/

theorem containerProgress_bounds (scrollTop scrollHeight clientHeight : Int)
    (h0 : 0 ≤ scrollTop) (h1 : scrollTop ≤ scrollHeight - clientHeight) :
    0 ≤ containerProgress scrollTop scrollHeight clientHeight ∧
      containerProgress scrollTop scrollHeight clientHeight ≤ 100 := by
  unfold containerProgress
  simp only
  split_ifs with hpos
  · have hq : (0 : ℚ) < ((scrollHeight - clientHeight : Int) : ℚ) := by exact_mod_cast hpos
    have h0q : (0 : ℚ) ≤ (scrollTop : ℚ) := by exact_mod_cast h0
    have h1q : (scrollTop : ℚ) ≤ ((scrollHeight - clientHeight : Int) : ℚ) := by
      exact_mod_cast h1
    constructor
    · positivity
    · have : (scrollTop : ℚ) / ((scrollHeight - clientHeight : Int) : ℚ) ≤ 1 :=
        (div_le_one hq).mpr h1q
      linarith
  · exact ⟨le_refl _, by norm_num⟩

/-- C3 (as stated, fails): when `scrollHeight = clientHeight` the maximum is 0,
`scrollTop = 0` is both the start and the maximum, and the width written is 0,
not 100. -/
theorem progress_at_zero_max_is_not_100 :
    (0 : Int) ≤ 600 - 600 ∧ containerProgress 0 600 600 = 0 ∧
    containerProgress (600 - 600) 600 600 ≠ 100 := by
  refine ⟨by decide, ?_, ?_⟩ <;> norm_num [containerProgress]

/-- C3 (amended): the width written by the frame callback is
`(scrollTop / max) * 100` when `max = scrollHeight - clientHeight > 0` and 0
when `max ≤ 0`; for `0 ≤ scrollTop ≤ max` it lies in `[0, 100]`, it is 0 at
`scrollTop = 0`, and it is 100 at `scrollTop = max` when `max > 0`; the window
callback computes the same function of its scroll offset
(`window.scrollY || documentElement.scrollTop`), height and viewport
height. -/
theorem scroll_progress_spec (scrollTop scrollHeight clientHeight : Int)
    (s : ProgressState) :
    (containerFrame scrollTop scrollHeight clientHeight s).barWidth =
      some (if scrollHeight - clientHeight > 0
        then ((scrollTop : ℚ) / ((scrollHeight - clientHeight : Int) : ℚ)) * 100 else 0) ∧
    (scrollHeight - clientHeight ≤ 0 →
      containerProgress scrollTop scrollHeight clientHeight = 0) ∧
    (0 ≤ scrollTop → scrollTop ≤ scrollHeight - clientHeight →
      0 ≤ containerProgress scrollTop scrollHeight clientHeight ∧
      containerProgress scrollTop scrollHeight clientHeight ≤ 100) ∧
    containerProgress 0 scrollHeight clientHeight = 0 ∧
    (0 < scrollHeight - clientHeight →
      containerProgress (scrollHeight - clientHeight) scrollHeight clientHeight = 100) ∧
    (∀ scrollY docScrollTop : Int,
      (windowFrame scrollY docScrollTop scrollHeight clientHeight s).barWidth =
        (containerFrame (jsOrInt scrollY docScrollTop) scrollHeight clientHeight s).barWidth) := by
  refine ⟨rfl, ?_, containerProgress_bounds scrollTop scrollHeight clientHeight, ?_, ?_, ?_⟩
  · intro h
    unfold containerProgress
    simp only
    rw [if_neg (by omega)]
  · unfold containerProgress
    simp
  · intro hpos
    unfold containerProgress
    simp only
    rw [if_pos hpos]
    have hq : ((scrollHeight - clientHeight : Int) : ℚ) ≠ 0 := by
      have : (0 : ℚ) < ((scrollHeight - clientHeight : Int) : ℚ) := by exact_mod_cast hpos
      exact ne_of_gt this
    rw [div_self hq]
    norm_num
  · intro scrollY docScrollTop
    rfl

theorem scroll_progress_spec_witness :
    (containerFrame 300 1800 600 { ticking := true, barWidth := none }).barWidth = some 25 ∧
    containerProgress 1200 1800 600 = 100 ∧
    (0 ≤ containerProgress 300 1800 600 ∧ containerProgress 300 1800 600 ≤ 100) ∧
    containerProgress 7 600 600 = 0 := by
  have h := scroll_progress_spec 300 1800 600 { ticking := true, barWidth := none }
  have h2 := scroll_progress_spec 7 600 600 { ticking := true, barWidth := none }
  refine ⟨?_, ?_, h.2.2.1 (by decide) (by decide), h2.2.1 (by decide)⟩
  · rw [h.1]
    norm_num
  · exact h.2.2.2.2.1 (by decide)

/-! ### Counter animation -/

theorem mathRound_intCast (n : Int) : mathRound (n : ℚ) = n := by
  unfold mathRound
  rw [Int.floor_eq_iff]
  constructor <;> linarith

theorem progress_eq_one (duration startTime t : ℚ) (hd : 0 < duration)
    (ht : t - startTime ≥ duration) : animateCounter.progress duration startTime t = 1 := by
  unfold animateCounter.progress
  exact min_eq_right ((one_le_div hd).mpr ht)

theorem progress_lt_one (duration startTime t : ℚ) (hd : 0 < duration)
    (ht : t - startTime < duration) : animateCounter.progress duration startTime t < 1 := by
  unfold animateCounter.progress
  exact min_lt_of_left_lt ((div_lt_one hd).mpr ht)

theorem update_at_end (start end_ : Int) (duration startTime t : ℚ) (hd : 0 < duration)
    (ht : t - startTime ≥ duration) (el : CounterEl) :
    animateCounter.update start end_ duration startTime t el =
      { textContent := toString end_ ++ "%", frameRequested := false } := by
  have hp := progress_eq_one duration startTime t hd ht
  have hc : animateCounter.current start end_ duration startTime t = end_ := by
    unfold animateCounter.current
    simp only [hp]
    have : (start : ℚ) + ((end_ : ℚ) - (start : ℚ)) * (1 - (1 - 1) ^ 4) = (end_ : ℚ) := by ring
    rw [this]
    exact mathRound_intCast end_
  unfold animateCounter.update
  simp [hp, hc]

theorem update_before_end (start end_ : Int) (duration startTime t : ℚ) (hd : 0 < duration)
    (ht : t - startTime < duration) (el : CounterEl) :
    (animateCounter.update start end_ duration startTime t el).frameRequested = true := by
  unfold animateCounter.update
  simp [progress_lt_one duration startTime t hd ht]

/-- Frames before the first timestamp at or past the end keep the loop going;
the frame at that timestamp writes the target and stops it. -/
theorem run_reaches (start end_ : Int) (duration startTime : ℚ) (hd : 0 < duration)
    (ts : Nat → ℚ) (m : Nat) (hm : ts m - startTime ≥ duration)
    (hbefore : ∀ k, k < m → ts k - startTime < duration) :
    ∀ (gap frame : Nat) (el : CounterEl), frame + gap = m → el.frameRequested = true →
      ∀ fuel, gap + 1 ≤ fuel →
        animateCounter.run start end_ duration startTime ts fuel frame el =
          ({ textContent := toString end_ ++ "%", frameRequested := false }, m + 1) := by
  intro gap
  induction gap with
  | zero =>
    intro frame el hfr hel fuel hfuel
    obtain ⟨f, rfl⟩ : ∃ f, fuel = f + 1 := ⟨fuel - 1, by omega⟩
    have hframe : frame = m := by omega
    subst hframe
    cases f <;>
      simp [animateCounter.run, hel,
        update_at_end start end_ duration startTime (ts frame) hd hm]
  | succ gap ih =>
    intro frame el hfr hel fuel hfuel
    obtain ⟨f, rfl⟩ : ∃ f, fuel = f + 1 := ⟨fuel - 1, by omega⟩
    have hlt : frame < m := by omega
    rw [animateCounter.run, if_pos hel]
    exact ih (frame + 1) _ (by omega)
      (update_before_end start end_ duration startTime (ts frame) hd (hbefore frame hlt) el)
      f (by omega)

/-- C4: with `duration > 0`, an update at a timestamp `t` with
`t - startTime ≥ duration` writes the text of `end` followed by `%` and
requests no further frame; an update with `t - startTime < duration` requests
another frame; and along any strictly increasing unbounded sequence of frame
timestamps the animation performs finitely many updates (`n` of them, with any
larger frame budget) and ends with the target written and no frame
requested. -/
theorem animateCounter_reaches_target (start end_ : Int) (duration startTime : ℚ)
    (hd : 0 < duration) :
    (∀ (t : ℚ) (el : CounterEl), t - startTime ≥ duration →
      animateCounter.update start end_ duration startTime t el =
        { textContent := toString end_ ++ "%", frameRequested := false }) ∧
    (∀ (t : ℚ) (el : CounterEl), t - startTime < duration →
      (animateCounter.update start end_ duration startTime t el).frameRequested = true) ∧
    (∀ (ts : Nat → ℚ), StrictMono ts → (∀ bound : ℚ, ∃ n, bound ≤ ts n) →
      ∀ el : CounterEl, ∃ n, 1 ≤ n ∧ ∀ fuel, n ≤ fuel →
        animateCounter.run start end_ duration startTime ts fuel 0 (animateCounter el) =
          ({ textContent := toString end_ ++ "%", frameRequested := false }, n)) := by
  refine ⟨fun t el ht => update_at_end start end_ duration startTime t hd ht el,
    fun t el ht => update_before_end start end_ duration startTime t hd ht el, ?_⟩
  intro ts _ hunb el
  have hex : ∃ n, ts n - startTime ≥ duration := by
    obtain ⟨n, hn⟩ := hunb (startTime + duration)
    exact ⟨n, by linarith⟩
  classical
  refine ⟨Nat.find hex + 1, by omega, ?_⟩
  intro fuel hfuel
  refine run_reaches start end_ duration startTime hd ts (Nat.find hex) (Nat.find_spec hex)
    ?_ (Nat.find hex) 0 (animateCounter el) (by omega) rfl fuel (by omega)
  intro k hk
  have := Nat.find_min hex hk
  exact lt_of_not_ge this

theorem animateCounter_reaches_target_witness :
    animateCounter.update 0 87 1200 0 1216 { textContent := "86%", frameRequested := true } =
      { textContent := toString (87 : Int) ++ "%", frameRequested := false } ∧
    (animateCounter.update 0 87 1200 0 16
      { textContent := "0%", frameRequested := true }).frameRequested = true ∧
    ∃ n, 1 ≤ n ∧ ∀ fuel, n ≤ fuel →
      animateCounter.run 0 87 1200 0 (fun k => 16 * (k : ℚ)) fuel 0
          (animateCounter { textContent := "0%", frameRequested := false }) =
        ({ textContent := toString (87 : Int) ++ "%", frameRequested := false }, n) :=
  have h := animateCounter_reaches_target 0 87 1200 0 (by norm_num)
  have hmono : StrictMono (fun k : Nat => 16 * (k : ℚ)) := by
    intro a b hab
    have : (a : ℚ) < (b : ℚ) := by exact_mod_cast hab
    show 16 * (a : ℚ) < 16 * (b : ℚ)
    linarith
  have hunb : ∀ bound : ℚ, ∃ n : Nat, bound ≤ (fun k : Nat => 16 * (k : ℚ)) n := by
    intro bound
    obtain ⟨n, hn⟩ := exists_nat_ge bound
    refine ⟨n, ?_⟩
    show bound ≤ 16 * (n : ℚ)
    have : (0 : ℚ) ≤ (n : ℚ) := Nat.cast_nonneg n
    linarith
  ⟨h.1 1216 _ (by norm_num), h.2.1 16 _ (by norm_num), h.2.2 _ hmono hunb _⟩

/-- C8 (as stated, fails): a frame timestamp before the recorded `startTime`
gives a negative progress and a negative value: with target 100, duration
1200, `startTime = 1200` and `currentTime = 0` the value written is -1500. -/
theorem counter_below_zero_before_start :
    (0 : Int) ≤ 100 ∧ (0 : ℚ) < 1200 ∧
    animateCounter.current 0 100 1200 1200 0 = -1500 ∧
    ¬ (0 ≤ animateCounter.current 0 100 1200 1200 0) := by
  have h : animateCounter.current 0 100 1200 1200 0 = -1500 := by
    unfold animateCounter.current animateCounter.progress mathRound
    norm_num [Int.floor_eq_iff]
  refine ⟨by decide, by norm_num, h, ?_⟩
  rw [h]
  decide

/-- C8 (amended): for a target `end ≥ 0`, a duration `> 0` and a frame
timestamp at or after `startTime`, the integer written by the update step of
`animateCounter(el, 0, end, duration)` lies in `[0, end]`. -/
theorem counter_within_target (end_ : Int) (duration startTime currentTime : ℚ)
    (hend : 0 ≤ end_) (hd : 0 < duration) (ht : startTime ≤ currentTime) :
    0 ≤ animateCounter.current 0 end_ duration startTime currentTime ∧
      animateCounter.current 0 end_ duration startTime currentTime ≤ end_ := by
  have hp0 : 0 ≤ animateCounter.progress duration startTime currentTime := by
    unfold animateCounter.progress
    exact le_min (div_nonneg (by linarith) hd.le) zero_le_one
  have hp1 : animateCounter.progress duration startTime currentTime ≤ 1 := by
    unfold animateCounter.progress
    exact min_le_right _ _
  set p := animateCounter.progress duration startTime currentTime with hp
  have hq0 : 0 ≤ (1 - p) ^ 4 := by positivity
  have hq1 : (1 - p) ^ 4 ≤ 1 := pow_le_one₀ (by linarith) (by linarith)
  have he : (0 : ℚ) ≤ (end_ : ℚ) := by exact_mod_cast hend
  have heq : ((0 : Int) : ℚ) + ((end_ : ℚ) - ((0 : Int) : ℚ)) * (1 - (1 - p) ^ 4) =
      (end_ : ℚ) * (1 - (1 - p) ^ 4) := by
    push_cast
    ring
  have hx0 : 0 ≤ (end_ : ℚ) * (1 - (1 - p) ^ 4) := mul_nonneg he (by linarith)
  have hx1 : (end_ : ℚ) * (1 - (1 - p) ^ 4) ≤ (end_ : ℚ) := by
    have : (end_ : ℚ) * (1 - (1 - p) ^ 4) ≤ (end_ : ℚ) * 1 :=
      mul_le_mul_of_nonneg_left (by linarith) he
    simpa using this
  unfold animateCounter.current mathRound
  simp only [← hp]
  rw [heq]
  generalize (end_ : ℚ) * (1 - (1 - p) ^ 4) = x at hx0 hx1
  constructor
  · exact Int.floor_nonneg.mpr (by linarith)
  · have : ⌊x + 1 / 2⌋ < end_ + 1 := by
      rw [Int.floor_lt]
      push_cast
      linarith
    omega

theorem counter_within_target_witness :
    0 ≤ animateCounter.current 0 87 1200 100 700 ∧
      animateCounter.current 0 87 1200 100 700 ≤ 87 :=
  counter_within_target 87 1200 100 700 (by decide) (by norm_num) (by norm_num)

/-! ### Parallax -/

theorem updateParallax_layer (s : ParallaxState) (i : Nat) (shape : LayerShape)
    (h : s.layerShapes.get? i = some shape) :
    (updateParallax s).layerShapes.get? i =
      some { shape with
        transform := some (translationAt (updateParallax s) (jsOrNumber shape.speed 0.5)) } := by
  have h2 : s.layerShapes[i]? = some shape := by simpa using h
  unfold updateParallax translationAt
  simp only [List.get?_eq_getElem?, List.getElem?_map, h2, Option.map_some']

/-- C5 (the code does not do this): a layer whose `data-speed` is "0" has the
configured factor 0, for which the translation is `(0, 0)`; `updateParallax`
moves it with the factor 0.5 instead, to `(9/20, -3/4)` in this state,
because `parseFloat(...) || 0.5` takes the fallback for the falsy number 0. -/
theorem zero_speed_layer_uses_fallback :
    (updateParallax zeroSpeedParallax).layerShapes.get? 0 =
      some { speed := some 0,
             transform := some (translationAt (updateParallax zeroSpeedParallax) (1 / 2)) } ∧
    translationAt (updateParallax zeroSpeedParallax) (1 / 2) = (9 / 20, -3 / 4) ∧
    translationAt (updateParallax zeroSpeedParallax) 0 = (0, 0) ∧
    (updateParallax zeroSpeedParallax).layerShapes.get? 0 ≠
      some { speed := some 0,
             transform := some (translationAt (updateParallax zeroSpeedParallax) 0) } := by
  have h1 : translationAt (updateParallax zeroSpeedParallax) (1 / 2) = (9 / 20, -3 / 4) := by
    unfold translationAt updateParallax zeroSpeedParallax
    norm_num
  have h2 : translationAt (updateParallax zeroSpeedParallax) 0 = (0, 0) := by
    unfold translationAt
    norm_num
  have h0 : (updateParallax zeroSpeedParallax).layerShapes.get? 0 =
      some { speed := some 0,
             transform := some (translationAt (updateParallax zeroSpeedParallax) (1 / 2)) } := by
    have := updateParallax_layer zeroSpeedParallax 0 { speed := some 0, transform := none } rfl
    rw [this]
    norm_num [jsOrNumber]
  refine ⟨h0, h1, h2, ?_⟩
  rw [h0, h1, h2]
  intro h
  injection h with h
  injection h with _ h
  injection h with h
  injection h with h _
  norm_num at h

/-- In `updateParallax`, a layer whose `data-speed` parses to a number `v`
other than 0 is given the translation
`(mX * 30 * v, -(scrollY * v * 0.3) + mY * 30 * v)` of the eased state, and a
layer whose `data-speed` is missing or not a number is given that translation
with the factor 0.5. -/
theorem parallax_layer_speed (s : ParallaxState) (i : Nat) (shape : LayerShape)
    (h : s.layerShapes.get? i = some shape) :
    (∀ v : ℚ, shape.speed = some v → v ≠ 0 →
      (updateParallax s).layerShapes.get? i =
        some { shape with
          transform := some ((updateParallax s).mX * 30 * v,
            -((updateParallax s).scrollY * v * 0.3) + (updateParallax s).mY * 30 * v) }) ∧
    (shape.speed = none →
      (updateParallax s).layerShapes.get? i =
        some { shape with
          transform := some ((updateParallax s).mX * 30 * 0.5,
            -((updateParallax s).scrollY * 0.5 * 0.3) + (updateParallax s).mY * 30 * 0.5) }) := by
  have hl := updateParallax_layer s i shape h
  constructor
  · intro v hv hne
    rw [hl]
    simp [jsOrNumber, hv, hne, translationAt]
  · intro hv
    rw [hl]
    simp [jsOrNumber, hv, translationAt]

theorem parallax_layer_speed_witness :
    (updateParallax { zeroSpeedParallax with
        layerShapes := [{ speed := some (1 / 5), transform := none },
                        { speed := none, transform := none }] }).layerShapes.get? 0 =
      some { speed := some (1 / 5),
             transform := some ((0 + (1 / 2 - 0) * 0.06) * 30 * (1 / 5),
               -((0 + (100 - 0) * 0.08) * (1 / 5) * 0.3)
                 + (0 + (1 / 2 - 0) * 0.06) * 30 * (1 / 5)) } :=
  (parallax_layer_speed
    { zeroSpeedParallax with
        layerShapes := [{ speed := some (1 / 5), transform := none },
                        { speed := none, transform := none }] }
    0 { speed := some (1 / 5), transform := none } rfl).1 (1 / 5) rfl (by norm_num)

/-! ### Typing effect -/

theorem typeCharTimes_take (randoms : Nat → ℚ) (typedEl : TypedEl) (k : Nat)
    (hk : k ≤ (jsOrString typedEl.dataText typedEl.textContent).length) :
    (typeCharTimes randoms k (startTyping typedEl)).typedEl.textContent =
        (jsOrString typedEl.dataText typedEl.textContent).take k ∧
    (typeCharTimes randoms k (startTyping typedEl)).charIndex = k ∧
    (typeCharTimes randoms k (startTyping typedEl)).text =
        jsOrString typedEl.dataText typedEl.textContent ∧
    (typeCharTimes randoms k (startTyping typedEl)).typedEl.typingDone = typedEl.typingDone ∧
    (typeCharTimes randoms k (startTyping typedEl)).pending.isSome = true := by
  induction k with
  | zero => simp [typeCharTimes, startTyping]
  | succ k ih =>
    obtain ⟨h1, h2, h3, h4, _⟩ := ih (by omega)
    have hlt : k < (jsOrString typedEl.dataText typedEl.textContent).length := by omega
    simp only [typeCharTimes, typeChar, h2, h3, if_pos hlt, h1, h4]
    refine ⟨?_, trivial, trivial, trivial, rfl⟩
    simp only [charAt, List.get?_eq_getElem?, List.getElem?_eq_getElem hlt, Option.toList]
    rw [List.take_succ, List.getElem?_eq_getElem hlt]
    rfl

theorem runTyping_steps (randoms : Nat → ℚ) (typedEl : TypedEl) (extra : Nat) :
    ∀ (fuel j : Nat), j + fuel ≤ (jsOrString typedEl.dataText typedEl.textContent).length →
      runTyping randoms (fuel + extra) j (typeCharTimes randoms j (startTyping typedEl)) =
        runTyping randoms extra (j + fuel)
          (typeCharTimes randoms (j + fuel) (startTyping typedEl)) := by
  intro fuel
  induction fuel with
  | zero => intro j _; simp
  | succ fuel ih =>
    intro j hj
    obtain ⟨p, hp⟩ := Option.isSome_iff_exists.mp
      (typeCharTimes_take randoms typedEl j (by omega)).2.2.2.2
    have e1 : fuel + 1 + extra = (fuel + extra) + 1 := by omega
    rw [e1, runTyping, hp]
    have := ih (j + 1) (by omega)
    rw [typeCharTimes] at this
    simp only [this]
    have e : j + 1 + fuel = j + (fuel + 1) := by omega
    rw [e]

theorem typeCharTimes_last (randoms : Nat → ℚ) (typedEl : TypedEl) :
    (typeCharTimes randoms ((jsOrString typedEl.dataText typedEl.textContent).length + 1)
        (startTyping typedEl)).typedEl.textContent =
      jsOrString typedEl.dataText typedEl.textContent ∧
    (typeCharTimes randoms ((jsOrString typedEl.dataText typedEl.textContent).length + 1)
        (startTyping typedEl)).typedEl.typingDone = true ∧
    (typeCharTimes randoms ((jsOrString typedEl.dataText typedEl.textContent).length + 1)
        (startTyping typedEl)).pending = none := by
  obtain ⟨h1, h2, h3, _, _⟩ := typeCharTimes_take randoms typedEl
    (jsOrString typedEl.dataText typedEl.textContent).length (le_refl _)
  simp only [typeCharTimes, typeChar, h2, h3, lt_irrefl, if_false, h1, List.take_length]
  exact ⟨trivial, trivial, trivial⟩

/-- C7: with `text` of length `n` and any random draws, for every `k ≤ n` the
timer loop makes `k` invocations of `typeChar` within `k` firings, after
which the text content is the first `k` units of `text` and a further
invocation is scheduled; the `(n+1)`-th invocation leaves the text content
equal to `text`, adds `typing-done` and schedules nothing, and the loop makes
exactly `n + 1` invocations however many more firings are allowed. -/
theorem typing_effect_reveals (randoms : Nat → ℚ) (typedEl : TypedEl) :
    (∀ k, k ≤ (jsOrString typedEl.dataText typedEl.textContent).length →
      runTyping randoms k 0 (startTyping typedEl) =
        (typeCharTimes randoms k (startTyping typedEl), k) ∧
      (typeCharTimes randoms k (startTyping typedEl)).typedEl.textContent =
        (jsOrString typedEl.dataText typedEl.textContent).take k ∧
      (typeCharTimes randoms k (startTyping typedEl)).pending.isSome = true) ∧
    (typeCharTimes randoms ((jsOrString typedEl.dataText typedEl.textContent).length + 1)
        (startTyping typedEl)).typedEl.textContent =
      jsOrString typedEl.dataText typedEl.textContent ∧
    (typeCharTimes randoms ((jsOrString typedEl.dataText typedEl.textContent).length + 1)
        (startTyping typedEl)).typedEl.typingDone = true ∧
    (typeCharTimes randoms ((jsOrString typedEl.dataText typedEl.textContent).length + 1)
        (startTyping typedEl)).pending = none ∧
    (∀ fuel, (jsOrString typedEl.dataText typedEl.textContent).length + 1 ≤ fuel →
      runTyping randoms fuel 0 (startTyping typedEl) =
        (typeCharTimes randoms ((jsOrString typedEl.dataText typedEl.textContent).length + 1)
          (startTyping typedEl),
         (jsOrString typedEl.dataText typedEl.textContent).length + 1)) := by
  obtain ⟨hl1, hl2, hl3⟩ := typeCharTimes_last randoms typedEl
  refine ⟨?_, hl1, hl2, hl3, ?_⟩
  · intro k hk
    obtain ⟨h1, _, _, _, h5⟩ := typeCharTimes_take randoms typedEl k hk
    refine ⟨?_, h1, h5⟩
    have := runTyping_steps randoms typedEl 0 k 0 (by omega)
    simpa [typeCharTimes, runTyping] using this
  · intro fuel hfuel
    obtain ⟨extra, rfl⟩ : ∃ extra,
        fuel = (jsOrString typedEl.dataText typedEl.textContent).length + (extra + 1) :=
      ⟨fuel - ((jsOrString typedEl.dataText typedEl.textContent).length + 1), by omega⟩
    have := runTyping_steps randoms typedEl (extra + 1)
      (jsOrString typedEl.dataText typedEl.textContent).length 0 (by omega)
    simp only [typeCharTimes, Nat.zero_add] at this
    rw [this]
    obtain ⟨p, hp⟩ := Option.isSome_iff_exists.mp
      (typeCharTimes_take randoms typedEl
        (jsOrString typedEl.dataText typedEl.textContent).length (le_refl _)).2.2.2.2
    rw [runTyping, hp]
    simp only
    have hstep : typeChar (randoms (jsOrString typedEl.dataText typedEl.textContent).length)
        (typeCharTimes randoms (jsOrString typedEl.dataText typedEl.textContent).length
          (startTyping typedEl)) =
        typeCharTimes randoms ((jsOrString typedEl.dataText typedEl.textContent).length + 1)
          (startTyping typedEl) := rfl
    rw [hstep]
    cases extra with
    | zero => rfl
    | succ extra => rw [runTyping, hl3]

/-! ### Section activation -/

theorem mem_classListAdd (cl : List String) (t : String) : t ∈ classListAdd cl t := by
  unfold classListAdd
  split_ifs with h
  · exact h
  · simp

theorem not_mem_classListRemove (cl : List String) (t : String) :
    t ∉ classListRemove cl t := by
  unfold classListRemove
  simp

theorem mem_classListToggle (cl : List String) (t : String) (force : Bool) :
    t ∈ classListToggle cl t force ↔ force = true := by
  unfold classListToggle
  cases force
  · simpa using not_mem_classListRemove cl t
  · simpa using mem_classListAdd cl t

theorem onEntry_ids (e : Entry) (st : SectionState) :
    (onEntry e st).sections.map (fun s => s.id) = st.sections.map (fun s => s.id) ∧
    (onEntry e st).navDots.length = st.navDots.length := by
  unfold onEntry
  split_ifs
  · refine ⟨?_, by simp⟩
    simp only [List.map_map]
    apply List.map_congr_left
    intro s _
    simp only [Function.comp]
    split_ifs <;> rfl
  · exact ⟨rfl, rfl⟩

theorem callback_ids (entries : List Entry) (st : SectionState) :
    (sectionObserverCallback entries st).sections.map (fun s => s.id) =
      st.sections.map (fun s => s.id) ∧
    (sectionObserverCallback entries st).navDots.length = st.navDots.length := by
  induction entries generalizing st with
  | nil => exact ⟨rfl, rfl⟩
  | cons e es ih =>
    have h1 := ih (onEntry e st)
    have h2 := onEntry_ids e st
    exact ⟨h1.1.trans h2.1, h1.2.trans h2.2⟩

theorem callback_append_singleton (entries : List Entry) (e : Entry) (st : SectionState) :
    sectionObserverCallback (entries ++ [e]) st =
      onEntry e (sectionObserverCallback entries st) := by
  simp [sectionObserverCallback, List.foldl_append]

theorem onEntry_intersecting (e : Entry) (st : SectionState) (h : e.isIntersecting = true) :
    (∀ s ∈ (onEntry e st).sections, s.isActive ↔ s.id = e.target) ∧
    (onEntry e st).currentSection = jsIndexOf (st.sections.map (fun s => s.id)) e.target ∧
    (∀ (i : Nat) (dot : Element), (onEntry e st).navDots.get? i = some dot →
      (dot.isActive ↔ (i : Int) = (onEntry e st).currentSection)) := by
  unfold onEntry
  simp only [h, if_true]
  refine ⟨?_, trivial, ?_⟩
  · intro s hs
    simp only [List.map_map, List.mem_map, Function.comp] at hs
    obtain ⟨s0, _, rfl⟩ := hs
    unfold Element.isActive
    by_cases hid : s0.id = e.target
    · simp only [hid, if_true]
      simpa using mem_classListAdd _ "active"
    · simp only [hid, if_false]
      simpa using not_mem_classListRemove s0.classList "active"
  · intro i dot hdot
    simp only [List.get?_eq_getElem?, List.getElem?_mapIdx] at hdot
    cases hd : st.navDots[i]? with
    | none => simp [hd] at hdot
    | some d =>
      simp only [hd, Option.map_some', Option.some.injEq] at hdot
      subst hdot
      unfold Element.isActive
      simp only [mem_classListToggle, decide_eq_true_eq]

theorem jsIndexOf_mem {α : Type} [DecidableEq α] (xs : List α) (x : α) (h : x ∈ xs) :
    0 ≤ jsIndexOf xs x ∧ jsIndexOf xs x < xs.length ∧
      xs.get? (jsIndexOf xs x).toNat = some x := by
  have hlt : xs.indexOf x < xs.length := List.indexOf_lt_length.mpr h
  unfold jsIndexOf
  simp only [hlt, if_true, Int.toNat_ofNat]
  refine ⟨by omega, by omega, ?_⟩
  rw [List.get?_eq_getElem?, List.getElem?_eq_getElem hlt, List.getElem_indexOf hlt]

/-- C6: for a batch of observer entries each targeting one of the sections:
if the batch has an intersecting entry and `e` is the last such entry, then
after the callback a section carries `active` exactly when it is the target
of `e` (and that target is among the sections), `currentSection` is the index
of that section in the section list, and dot `i` carries `active` exactly when
`i = currentSection`; if no entry of the batch is intersecting, the state is
unchanged. -/
theorem section_observer_sync (st : SectionState) (entries : List Entry)
    (htargets : ∀ e ∈ entries, ∃ s ∈ st.sections, s.id = e.target) :
    (∀ e, (entries.filter (fun x => x.isIntersecting)).getLast? = some e →
      (sectionObserverCallback entries st).sections.map (fun s => s.id) =
        st.sections.map (fun s => s.id) ∧
      (∃ s ∈ (sectionObserverCallback entries st).sections, s.id = e.target) ∧
      (∀ s ∈ (sectionObserverCallback entries st).sections,
        s.isActive ↔ s.id = e.target) ∧
      0 ≤ (sectionObserverCallback entries st).currentSection ∧
      (st.sections.map (fun s => s.id)).get?
        (sectionObserverCallback entries st).currentSection.toNat = some e.target ∧
      (sectionObserverCallback entries st).currentSection =
        jsIndexOf (st.sections.map (fun s => s.id)) e.target ∧
      (sectionObserverCallback entries st).navDots.length = st.navDots.length ∧
      (∀ (i : Nat) (dot : Element),
        (sectionObserverCallback entries st).navDots.get? i = some dot →
        (dot.isActive ↔ (i : Int) = (sectionObserverCallback entries st).currentSection))) ∧
    ((∀ e ∈ entries, e.isIntersecting = false) →
      sectionObserverCallback entries st = st) := by
  constructor
  · induction entries using List.reverseRecOn with
    | nil => intro e he; simp at he
    | append_singleton es e0 ih =>
      intro e he
      have hids := callback_ids (es ++ [e0]) st
      rw [callback_append_singleton] at hids ⊢
      by_cases hint : e0.isIntersecting = true
      · have hlast : e = e0 := by
          simp [List.filter_append, hint] at he
          exact he.symm
        subst hlast
        obtain ⟨s, hs, hsid⟩ := htargets e (by simp)
        have hmem : e.target ∈ st.sections.map (fun s => s.id) :=
          List.mem_map.mpr ⟨s, hs, hsid⟩
        have hidsPrev := (callback_ids es st).1
        obtain ⟨hact, hcur, hdots⟩ := onEntry_intersecting e (sectionObserverCallback es st) hint
        rw [hidsPrev] at hcur
        obtain ⟨hj0, _, hjget⟩ := jsIndexOf_mem _ _ hmem
        refine ⟨hids.1, ?_, hact, ?_, ?_, hcur, hids.2, hdots⟩
        · have : e.target ∈ (onEntry e (sectionObserverCallback es st)).sections.map
              (fun s => s.id) := by rw [hids.1]; exact hmem
          obtain ⟨s', hs', hs'id⟩ := List.mem_map.mp this
          exact ⟨s', hs', hs'id⟩
        · rw [hcur]; exact hj0
        · rw [hcur]; exact hjget
      · have hno : onEntry e0 (sectionObserverCallback es st) = sectionObserverCallback es st := by
          unfold onEntry
          simp [hint]
        have he2 : (es.filter (fun x => x.isIntersecting)).getLast? = some e := by
          simpa [List.filter_append, hint] using he
        rw [hno]
        exact ih (fun e1 he1 => htargets e1 (by simp [he1])) e he2
  · intro hnone
    induction entries using List.reverseRecOn with
    | nil => rfl
    | append_singleton es e0 ih =>
      rw [callback_append_singleton,
        ih (fun e1 he1 => htargets e1 (by simp [he1])) (fun e1 he1 => hnone e1 (by simp [he1]))]
      unfold onEntry
      simp [hnone e0 (by simp)]

/-! ### Initialisation -/

/-- Each guarded initializer returns the page unchanged when an element it
requires is absent. -/
theorem guarded_initializers_noop (p : Page) :
    (p.loader = none → initLoader p = p) ∧
    (p.cursor = none ∨ p.cursorDot = none → initCursor p = p) ∧
    (p.progressBar = none ∨ p.container = none → initScrollProgress p = p) ∧
    (p.layerShapes = [] → initParallax p = Except.ok p) ∧
    (p.typedEl = none → initTypingEffect p = p) ∧
    (p.counters = 0 → initCounters p = p) ∧
    (p.waterFills = 0 → initWaterFill p = p) := by
  refine ⟨?_, ?_, ?_, ?_, ?_, ?_, ?_⟩
  · intro h; simp [initLoader, h]
  · intro h
    unfold initCursor
    rcases h with h | h
    · simp [h]
    · cases hc : p.cursor <;> simp [h]
  · intro h
    unfold initScrollProgress
    rcases h with h | h
    · simp [h]
    · cases hc : p.progressBar <;> simp [h]
  · intro h; simp [initParallax, h]
  · intro h; simp [initTypingEffect, h]
  · intro h; simp [initCounters, h]
  · intro h; simp [initWaterFill, h]

/-- C1 (the code does not do this): on a page without `#main-container` that
has at least one `.layer-shape`, `initParallax` throws a `TypeError`, and
`init` ends with that error at its sixth initializer instead of running all
twelve. -/
theorem initParallax_throws_without_container (p : Page) (hc : p.container = none)
    (hl : p.layerShapes ≠ []) :
    initParallax p =
      Except.error
        (JsError.typeError "Cannot read properties of null (reading addEventListener)") ∧
    init p =
      Except.error
        (JsError.typeError "Cannot read properties of null (reading addEventListener)") := by
  have hlen : ¬ p.layerShapes.length = 0 := by
    simpa [List.length_eq_zero] using hl
  have key : ∀ q : Page, q.container = none → q.layerShapes = p.layerShapes →
      initParallax q = Except.error
        (JsError.typeError "Cannot read properties of null (reading addEventListener)") := by
    intro q hq hql
    unfold initParallax
    rw [hql, if_neg hlen, hq]
  refine ⟨key p hc rfl, ?_⟩
  have hpre : initParallax
      (initKeyboard (initNavDots (initSectionObserver (initGridPatterns (initLoader p))))) =
      Except.error
        (JsError.typeError "Cannot read properties of null (reading addEventListener)") := by
    apply key
    · simp only [initKeyboard, initNavDots, initSectionObserver, initGridPatterns, initLoader]
      cases p.loader <;> exact hc
    · simp only [initKeyboard, initNavDots, initSectionObserver, initGridPatterns, initLoader]
      cases p.loader <;> rfl
  unfold init
  simp only [hpre]
  rfl

theorem initParallax_throws_without_container_witness :
    initParallax pageWithoutContainer =
      Except.error
        (JsError.typeError "Cannot read properties of null (reading addEventListener)") ∧
    init pageWithoutContainer =
      Except.error
        (JsError.typeError "Cannot read properties of null (reading addEventListener)") :=
  initParallax_throws_without_container pageWithoutContainer rfl (by decide)

theorem section_observer_sync_witness :
    (sectionObserverCallback
        [{ isIntersecting := true, target := 12 }, { isIntersecting := true, target := 11 },
         { isIntersecting := false, target := 10 }] threeSections).currentSection =
      jsIndexOf [10, 11, 12] 11 ∧
    sectionObserverCallback [{ isIntersecting := false, target := 11 }] threeSections =
      threeSections :=
  ⟨((section_observer_sync threeSections
      [{ isIntersecting := true, target := 12 }, { isIntersecting := true, target := 11 },
       { isIntersecting := false, target := 10 }] (by decide)).1
      { isIntersecting := true, target := 11 } (by decide)).2.2.2.2.2.1,
   (section_observer_sync threeSections [{ isIntersecting := false, target := 11 }]
      (by decide)).2 (by decide)⟩

theorem typing_effect_reveals_witness :
    (typeCharTimes (fun _ => 1 / 2) 1 (startTyping hiElement)).typedEl.textContent =
      List.take 1 [72, 105] ∧
    runTyping (fun _ => 1 / 2) 7 0 (startTyping hiElement) =
      (typeCharTimes (fun _ => 1 / 2) 3 (startTyping hiElement), 3) :=
  ⟨((typing_effect_reveals (fun _ => 1 / 2) hiElement).1 1 (by decide)).2.1,
   (typing_effect_reveals (fun _ => 1 / 2) hiElement).2.2.2.2 7 (by decide)⟩

end Portfolio
